import Mathlib

/-!
Verification of the assessment-matrix reconciliation and persistence engine
of `src/app.py` (Streamlit faculty survey portal).

Shallow embedding conventions:
* pandas `DataFrame`s become Lean `List`s of structures, one structure per row;
* float values become `ℚ`; a pandas `NaN` / SQL `NULL` cell becomes `none`
  in an `Option ℚ` (so `fillna(0)` is `Option.getD · 0`);
* the Supabase `assessments` and `courses` tables become lists of records,
  and the four store primitives used by the code (filtered select, filtered
  delete, insert-append, and the two-table state) are modelled explicitly;
* a raised `ValueError` becomes the `Except.error` branch of an `Except`.
-/

/-- The fixed, ordered Category Registry: `ASSESSMENT_TYPES` in `src/app.py`
(11 labels). -/
def ASSESSMENT_TYPES : List String :=
  [ "In-person exam/quiz, closed resources, no AI"
  , "In-person exam/quiz, limited resources (notes/book), no AI"
  , "In-person exam/quiz, open resources, AI allowed"
  , "Online timed exam/quiz, closed resources, no AI"
  , "Online timed exam/quiz, limited resources (notes/book), no AI"
  , "Online timed exam/quiz, open resources, AI allowed"
  , "Out-of-class untimed exam/quiz, closed resources, no AI"
  , "Out-of-class untimed exam/quiz, limited resources (notes/book), no AI"
  , "Out-of-class untimed exam/quiz, open resources, AI allowed"
  , "In-person participation/presentations, no AI"
  , "In-person participation/presentations, AI allowed" ]

/-- One persisted row of the `assessments` table
(composite-keyed by instructor code, course code, assessment type).
Numeric columns are `Option ℚ`: `none` models a SQL NULL / pandas NaN. -/
structure AssessmentRecord where
  instructor_code : String
  course_code : String
  assessment_type : String
  percent_of_class_assessment : Option ℚ
  ai_misuse_susceptibility : Option ℚ
  modification_level : Option ℚ
deriving DecidableEq

/-- One row of the in-memory matrix `DataFrame` produced by
`load_assessments_for_course` (columns `assessment_type`,
`percent_of_class_assessment`, `ai_misuse_susceptibility`,
`modification_level`; `none` models a NaN cell). -/
structure MatrixRow where
  assessment_type : String
  percent_of_class_assessment : Option ℚ
  ai_misuse_susceptibility : Option ℚ
  modification_level : Option ℚ
deriving DecidableEq

/-- The store primitive
`table("assessments").select("*").eq("instructor_code", i).eq("course_code", c)`. -/
def selectAssessments (store : List AssessmentRecord) (i c : String) :
    List AssessmentRecord :=
  store.filter fun r => r.instructor_code == i && r.course_code == c

/-- Column projection `df_db = df_db[["assessment_type", ...]]`
(src/app.py lines 198-205): keep the four matrix columns of a stored row. -/
def dbRow (r : AssessmentRecord) : MatrixRow :=
  { assessment_type := r.assessment_type
  , percent_of_class_assessment := r.percent_of_class_assessment
  , ai_misuse_susceptibility := r.ai_misuse_susceptibility
  , modification_level := r.modification_level }

/-- The default matrix built when no stored data exists
(src/app.py lines 187-195): all `percent_of_class_assessment` 0.0 except
100.0 at positional index 0; the other two columns 0.0 everywhere. -/
def defaultMatrix : List MatrixRow :=
  ASSESSMENT_TYPES.enum.map fun p =>
    { assessment_type := p.2
    , percent_of_class_assessment := some (if p.1 = 0 then 100 else 0)
    , ai_misuse_susceptibility := some 0
    , modification_level := some 0 }

/-- `df_types.merge(df_db, on="assessment_type", how="left")`
(src/app.py line 208): for each left row (registry label, in order), emit one
copy per matching right row, in right order; with no match emit a single row
whose numeric cells are NaN (`none`). Unmatched right rows are dropped. -/
def mergeLeft (types : List String) (db : List MatrixRow) : List MatrixRow :=
  types.flatMap fun t =>
    if (db.filter fun r => r.assessment_type == t).isEmpty then
      [{ assessment_type := t
       , percent_of_class_assessment := none
       , ai_misuse_susceptibility := none
       , modification_level := none }]
    else db.filter fun r => r.assessment_type == t

/-- `load_assessments_for_course` (src/app.py lines 172-209): select the
stored rows for the (instructor, course) pair; if none, return the seeded
default matrix, otherwise left-merge the stored values onto the registry. -/
def load_assessments_for_course (store : List AssessmentRecord) (i c : String) :
    List MatrixRow :=
  if (selectAssessments store i c).isEmpty then defaultMatrix
  else mergeLeft ASSESSMENT_TYPES ((selectAssessments store i c).map dbRow)

/-- One row of the candidate (caller-edited) `DataFrame` handed to
`save_assessments_for_course`. Every column is optional: a NaN cell is
`none`. The two code columns are present in case a caller passes a frame
that already carries them (the code overwrites them unconditionally);
the data editor in the app never supplies them, so they default to `none`. -/
structure EditedRow where
  instructor_code : Option String := none
  course_code : Option String := none
  assessment_type : Option String := none
  percent_of_class_assessment : Option ℚ := none
  ai_misuse_susceptibility : Option ℚ := none
  modification_level : Option ℚ := none
deriving DecidableEq

/-- `float(df["percent_of_class_assessment"].fillna(0).sum())`
(src/app.py lines 221-223): missing percents count as 0 before summing. -/
def editedTotal (df : List EditedRow) : ℚ :=
  (df.map fun r => r.percent_of_class_assessment.getD 0).sum

/-- The observed total as it appears in the raised error message:
`f"... they sum to {total:.1f} ..."` (src/app.py line 229) renders the total
rounded to one decimal place, so the error carries `round(total*10)/10`,
not the exact total. -/
def reportedTotal (total : ℚ) : ℚ := ((round (total * 10) : ℤ) : ℚ) / 10

/-- The `ValueError` raised by `save_assessments_for_course`
(src/app.py lines 227-230); it carries the observed total as formatted
into its message (one decimal place). -/
structure PercentSumError where
  reported_total : ℚ
deriving DecidableEq

/-- Python `str.strip` as applied by `df["assessment_type"].str.strip()`:
remove leading and trailing whitespace. -/
def pyStrip (s : String) : String :=
  ⟨((s.data.dropWhile Char.isWhitespace).reverse.dropWhile
      Char.isWhitespace).reverse⟩

/-- The rows handed to `insert` on a successful save
(src/app.py lines 220-246): `assessment_type` is `fillna("")` then stripped,
the three numeric columns are `fillna(0)`, and the `instructor_code` and
`course_code` columns are overwritten with the arguments. -/
def savedRows (i c : String) (df : List EditedRow) : List AssessmentRecord :=
  df.map fun r =>
    { instructor_code := i
    , course_code := c
    , assessment_type := pyStrip (r.assessment_type.getD "")
    , percent_of_class_assessment := some (r.percent_of_class_assessment.getD 0)
    , ai_misuse_susceptibility := some (r.ai_misuse_susceptibility.getD 0)
    , modification_level := some (r.modification_level.getD 0) }

/-- One course row of the `courses` table. -/
structure Course where
  id : String
  instructor_code : String
  course_code : String
  course_title : String := ""
  term : String := ""
  level : String := ""
  modality : String := ""
  approx_students : Nat := 0
deriving DecidableEq

/-- The two tables the engine touches. -/
structure DBState where
  courses : List Course
  assessments : List AssessmentRecord
deriving DecidableEq

/-- The store write primitives the engine issues, in the order the code
issues them: filtered deletes and row inserts, as in §6 of the spec. -/
inductive StoreOp where
  | deleteAssessmentsOp (i c : String)
  | insertAssessmentsOp (rows : List AssessmentRecord)
  | deleteCourseOp (course_id i : String)
deriving DecidableEq

/-- The store primitive
`table("assessments").delete().eq("instructor_code", i).eq("course_code", c)`:
keep the rows that fail the filter. -/
def deleteAssessments (store : List AssessmentRecord) (i c : String) :
    List AssessmentRecord :=
  store.filter fun r => !(r.instructor_code == i && r.course_code == c)

/-- Effect of one store primitive on the two tables. A filtered delete keeps
the rows that fail the filter; an insert appends. -/
def applyOp (db : DBState) : StoreOp → DBState
  | .deleteAssessmentsOp i c =>
      { db with assessments := deleteAssessments db.assessments i c }
  | .insertAssessmentsOp rows =>
      { db with assessments := db.assessments ++ rows }
  | .deleteCourseOp course_id i =>
      { db with courses :=
          db.courses.filter fun k =>
            !(k.id == course_id && k.instructor_code == i) }

/-- Run a sequence of store primitives left to right. -/
def applyOps (db : DBState) (ops : List StoreOp) : DBState :=
  ops.foldl applyOp db

/-- The validation step plus the write sequence of
`save_assessments_for_course` (src/app.py lines 212-252): normalize, sum
the percents, raise when `|total - 100| > 0.5`, otherwise issue the
delete-then-insert pair for the (instructor, course) pair. -/
def save_assessment_ops (i c : String) (df : List EditedRow) :
    Except PercentSumError (List StoreOp) :=
  if |editedTotal df - 100| > 1/2 then
    .error { reported_total := reportedTotal (editedTotal df) }
  else
    .ok [ .deleteAssessmentsOp i c, .insertAssessmentsOp (savedRows i c df) ]

/-- `save_assessments_for_course` as a state transformer: on success the new
store state (the issued writes applied in order), on failure the raised
`PercentSumError`. -/
def save_assessments_for_course (i c : String) (df : List EditedRow)
    (db : DBState) : Except PercentSumError DBState :=
  match save_assessment_ops i c df with
  | .error e => .error e
  | .ok ops => .ok (applyOps db ops)

/-- The store state as the caller observes it after invoking the save
operation: the raised `ValueError` propagates (the UI catches it and
reports), leaving the store as it was. -/
def run_save (i c : String) (df : List EditedRow) (db : DBState) : DBState :=
  match save_assessments_for_course i c df db with
  | .ok db2 => db2
  | .error _ => db

/-- The write sequence of `delete_course_for_instructor`
(src/app.py lines 158-165): delete the assessments for the
(instructor, course) pair first, then the course row itself. -/
def delete_course_ops (course_id i c : String) : List StoreOp :=
  [ .deleteAssessmentsOp i c, .deleteCourseOp course_id i ]

/-- `delete_course_for_instructor` as a state transformer. -/
def delete_course_for_instructor (course_id i c : String) (db : DBState) :
    DBState :=
  applyOps db (delete_course_ops course_id i c)

/-- A concrete stored row for the pair ("I", "C") carrying the first
registry label. -/
def rowIC : AssessmentRecord :=
  { instructor_code := "I", course_code := "C"
  , assessment_type := "In-person exam/quiz, closed resources, no AI"
  , percent_of_class_assessment := some 60
  , ai_misuse_susceptibility := some 10
  , modification_level := some 20 }

/-- A concrete stored row whose category label is not in the registry. -/
def rowAlien : AssessmentRecord :=
  { instructor_code := "I", course_code := "C"
  , assessment_type := "Homework portfolio"
  , percent_of_class_assessment := some 40
  , ai_misuse_susceptibility := some 5
  , modification_level := some 5 }

/-- A concrete stored-row set with one registry label and one foreign label. -/
def storeC1 : List AssessmentRecord := [rowIC, rowAlien]

/-- A concrete stored row belonging to a different course of the same
instructor. -/
def rowOtherPair : AssessmentRecord :=
  { instructor_code := "I", course_code := "D"
  , assessment_type := "In-person exam/quiz, closed resources, no AI"
  , percent_of_class_assessment := some 100
  , ai_misuse_susceptibility := some 0
  , modification_level := some 0 }

/-- A concrete course row for the pair ("I", "C"). -/
def courseIC : Course :=
  { id := "id1", instructor_code := "I", course_code := "C" }

/-- A concrete store state: one course and assessment rows of two
(instructor, course) pairs. -/
def dbW : DBState :=
  { courses := [courseIC], assessments := [rowIC, rowOtherPair] }

/-- A concrete candidate frame whose single percent is 110.04
(= 2751/25), outside the tolerance. -/
def dfBadSum : List EditedRow :=
  [ { assessment_type := some "In-person exam/quiz, closed resources, no AI"
    , percent_of_class_assessment := some (2751/25) } ]

/-- A concrete candidate frame whose percents sum to 100.2 (within the
tolerance) while carrying an `ai_misuse_susceptibility` of 250 and a
`modification_level` of -5 (both outside 0..100), an absent
susceptibility, and a stray instructor code that the save must overwrite. -/
def dfOk : List EditedRow :=
  [ { instructor_code := some "EVE"
    , assessment_type := some "In-person exam/quiz, closed resources, no AI"
    , percent_of_class_assessment := some (301/5)
    , ai_misuse_susceptibility := some 250 }
  , { assessment_type := some "Online timed exam/quiz, closed resources, no AI"
    , percent_of_class_assessment := some 40
    , modification_level := some (-5) } ]

/-- A concrete registry-shaped candidate frame: one row per registry label
in order, 100 percent on the first row and absent percents (counted as 0)
elsewhere. -/
def dfFull : List EditedRow :=
  [ { assessment_type := some "In-person exam/quiz, closed resources, no AI"
    , percent_of_class_assessment := some 100 }
  , { assessment_type :=
        some "In-person exam/quiz, limited resources (notes/book), no AI" }
  , { assessment_type := some "In-person exam/quiz, open resources, AI allowed" }
  , { assessment_type := some "Online timed exam/quiz, closed resources, no AI" }
  , { assessment_type :=
        some "Online timed exam/quiz, limited resources (notes/book), no AI" }
  , { assessment_type :=
        some "Online timed exam/quiz, open resources, AI allowed" }
  , { assessment_type :=
        some "Out-of-class untimed exam/quiz, closed resources, no AI" }
  , { assessment_type :=
        some "Out-of-class untimed exam/quiz, limited resources (notes/book), no AI" }
  , { assessment_type :=
        some "Out-of-class untimed exam/quiz, open resources, AI allowed" }
  , { assessment_type := some "In-person participation/presentations, no AI" }
  , { assessment_type :=
        some "In-person participation/presentations, AI allowed" } ]

/-- List lemma: under distinct category labels, filtering by one label
yields the `find?` result as a list (zero or one row). -/
theorem filter_type_eq_find_toList (db : List MatrixRow) (t : String)
    (hnd : (db.map MatrixRow.assessment_type).Nodup) :
    db.filter (fun r => r.assessment_type == t)
      = (db.find? (fun r => r.assessment_type == t)).toList := by
  induction db with
  | nil => rfl
  | cons a l ih =>
    rw [List.map_cons, List.nodup_cons] at hnd
    by_cases h : a.assessment_type = t
    · have hl : l.filter (fun r => r.assessment_type == t) = [] := by
        rw [List.filter_eq_nil_iff]
        intro r hr hbeq
        apply hnd.1
        have hrt : r.assessment_type = t := by simpa using hbeq
        rw [h, ← hrt]
        exact List.mem_map_of_mem MatrixRow.assessment_type hr
      simp [List.filter_cons, List.find?_cons_of_pos, h, hl]
    · simp [List.filter_cons, List.find?_cons_of_neg, h, ih hnd.2]

/-- Closed form of the left merge under distinct stored labels: one output
row per registry label, taken from the unique matching stored row when it
exists and NaN-filled otherwise. -/
theorem mergeLeft_eq_map_find (types : List String) (db : List MatrixRow)
    (hnd : (db.map MatrixRow.assessment_type).Nodup) :
    mergeLeft types db
      = types.map fun t =>
          match db.find? (fun r => r.assessment_type == t) with
          | some r => r
          | none =>
              { assessment_type := t
              , percent_of_class_assessment := none
              , ai_misuse_susceptibility := none
              , modification_level := none } := by
  induction types with
  | nil => rfl
  | cons t ts ih =>
    rw [List.map_cons, mergeLeft, List.flatMap_cons, ← mergeLeft, ih]
    rw [filter_type_eq_find_toList db t hnd]
    cases db.find? (fun r => r.assessment_type == t) <;> simp

/-- The left merge emits exactly the registry labels, in order, when the
stored labels are distinct. -/
theorem mergeLeft_map_type (types : List String) (db : List MatrixRow)
    (hnd : (db.map MatrixRow.assessment_type).Nodup) :
    (mergeLeft types db).map MatrixRow.assessment_type = types := by
  rw [mergeLeft_eq_map_find types db hnd, List.map_map]
  induction types with
  | nil => rfl
  | cons t ts ih =>
    rw [List.map_cons, ih]
    congr 1
    cases hf : db.find? (fun r => r.assessment_type == t) with
    | none => simp [Function.comp, hf]
    | some r =>
      have hp := List.find?_some hf
      simp only [Function.comp_apply, hf]
      simpa using hp

/-- C1: for every stored-row set for an (instructor, course) pair whose
category labels are pairwise distinct (the store key invariant), including
the empty set and sets containing labels outside the Category Registry,
`load_assessments_for_course` returns exactly one row per registry entry,
in registry order, and no others; being a total function, it never raises
for missing or extra stored rows. -/
theorem reconcile_completeness (store : List AssessmentRecord) (i c : String)
    (hnd : ((selectAssessments store i c).map
      AssessmentRecord.assessment_type).Nodup) :
    (load_assessments_for_course store i c).map MatrixRow.assessment_type
      = ASSESSMENT_TYPES := by
  rw [load_assessments_for_course]
  by_cases h : (selectAssessments store i c).isEmpty
  · rw [if_pos h]; decide
  · rw [if_neg h]
    apply mergeLeft_map_type
    rw [List.map_map]
    exact hnd

/-- Witness for C1 at a stored-row set holding one registry label and one
foreign label. -/
theorem reconcile_completeness_witness :
    (load_assessments_for_course storeC1 "I" "C").map MatrixRow.assessment_type
      = ASSESSMENT_TYPES :=
  reconcile_completeness storeC1 "I" "C" (by decide)

/-- C3: on the empty stored-row set the reconciler seeds
`percent_of_class_assessment` with 100.0 at registry index 0 and 0.0
elsewhere, sets `ai_misuse_susceptibility` and `modification_level` to 0.0
on every row, and the percents sum to exactly 100.0. -/
theorem reconcile_empty_default (i c : String) :
    (load_assessments_for_course [] i c).map
        MatrixRow.percent_of_class_assessment
      = some 100 :: List.replicate 10 (some 0)
    ∧ (load_assessments_for_course [] i c).map
        MatrixRow.ai_misuse_susceptibility
      = List.replicate 11 (some 0)
    ∧ (load_assessments_for_course [] i c).map
        MatrixRow.modification_level
      = List.replicate 11 (some 0)
    ∧ ((load_assessments_for_course [] i c).map
        (fun r => r.percent_of_class_assessment.getD 0)).sum = 100 := by
  have h : load_assessments_for_course [] i c = defaultMatrix := rfl
  rw [h]
  have h1 : defaultMatrix.map MatrixRow.percent_of_class_assessment
      = some 100 :: List.replicate 10 (some 0) := by decide
  refine ⟨h1, by decide, by decide, ?_⟩
  have h2 : defaultMatrix.map (fun r => r.percent_of_class_assessment.getD 0)
      = (defaultMatrix.map MatrixRow.percent_of_class_assessment).map
          (fun o => o.getD 0) := by
    rw [List.map_map]; rfl
  rw [h2, h1]
  simp

/-- C4 counterexample: on the non-empty stored-row set `[rowIC]` (whose one
row carries the first registry label), the reconciled row for registry
index 1 — a category with no stored row — has all three numeric fields
left as NaN (`none`), which is not the value 0.0 the claim asserts. -/
theorem reconcile_zero_fill_refuted :
    (load_assessments_for_course [rowIC] "I" "C")[1]?
      = some
        { assessment_type :=
            "In-person exam/quiz, limited resources (notes/book), no AI"
        , percent_of_class_assessment := none
        , ai_misuse_susceptibility := none
        , modification_level := none }
    ∧ (none : Option ℚ) ≠ some 0 := by
  refine ⟨by decide, by decide⟩

/-- C4 (amended): for every non-empty stored-row set with pairwise-distinct
category labels, the reconciler preserves the stored values unchanged on
each registry category that has a stored row (exact-string label match),
and for each registry category with no stored row it leaves all three
numeric fields absent (NaN), not 0.0 — zero-defaulting happens only in the
save path. -/
theorem reconcile_merge_fidelity (store : List AssessmentRecord) (i c : String)
    (hne : (selectAssessments store i c).isEmpty = false)
    (hnd : ((selectAssessments store i c).map
      AssessmentRecord.assessment_type).Nodup) :
    load_assessments_for_course store i c
      = ASSESSMENT_TYPES.map fun t =>
          match (selectAssessments store i c).find?
              (fun r => r.assessment_type == t) with
          | some r => dbRow r
          | none =>
              { assessment_type := t
              , percent_of_class_assessment := none
              , ai_misuse_susceptibility := none
              , modification_level := none } := by
  rw [load_assessments_for_course, if_neg (by simp [hne])]
  rw [mergeLeft_eq_map_find _ _ (by rw [List.map_map]; exact hnd)]
  congr 1
  funext t
  rw [List.find?_map]
  have hc : ((fun r : MatrixRow => r.assessment_type == t) ∘ dbRow)
      = (fun r : AssessmentRecord => r.assessment_type == t) := rfl
  rw [hc]
  cases (selectAssessments store i c).find?
      (fun r => r.assessment_type == t) <;> rfl

/-- Witness for the amended C4 at the stored-row set `[rowIC]`. -/
theorem reconcile_merge_fidelity_witness :
    load_assessments_for_course [rowIC] "I" "C"
      = ASSESSMENT_TYPES.map (fun t =>
          match (selectAssessments [rowIC] "I" "C").find?
              (fun r => r.assessment_type == t) with
          | some r => dbRow r
          | none =>
              { assessment_type := t
              , percent_of_class_assessment := none
              , ai_misuse_susceptibility := none
              , modification_level := none }) :=
  reconcile_merge_fidelity [rowIC] "I" "C" (by decide) (by decide)

/-- C2 counterexample: on the candidate frame `dfBadSum` the observed total
is 110.04, validation fails, but the raised error carries 110.0 — the total
as rendered with one decimal place in the message — which differs from the
exact observed sum. -/
theorem validator_exact_sum_refuted :
    editedTotal dfBadSum = 2751/25
    ∧ save_assessment_ops "I" "C" dfBadSum
        = .error { reported_total := 110 }
    ∧ (110 : ℚ) ≠ 2751/25 := by
  have ht : editedTotal dfBadSum = 2751/25 := by
    simp [editedTotal, dfBadSum]
  have hr : reportedTotal (2751/25) = 110 := by
    rw [reportedTotal, round_eq]
    norm_num
  refine ⟨ht, ?_, by norm_num⟩
  rw [save_assessment_ops, ht, if_pos (by norm_num [lt_abs]), hr]

/-- C2 (amended): the validation step of the save operation succeeds iff
`|sum of percents - 100| ≤ 0.5` with missing percents counted as 0.0 before
summing; when it fails, the raised error carries the observed sum as
rendered in its message, i.e. rounded to one decimal place (not the exact
observed sum). -/
theorem validator_boundary (i c : String) (df : List EditedRow) :
    ((∃ ops, save_assessment_ops i c df = .ok ops)
        ↔ |editedTotal df - 100| ≤ 1/2)
    ∧ (|editedTotal df - 100| > 1/2 →
        save_assessment_ops i c df
          = .error { reported_total := reportedTotal (editedTotal df) }) := by
  constructor
  · constructor
    · rintro ⟨ops, hops⟩
      by_contra hgt
      rw [save_assessment_ops, if_pos (not_le.mp hgt)] at hops
      exact absurd hops (by simp)
    · intro hle
      rw [save_assessment_ops, if_neg (not_lt.mpr hle)]
      exact ⟨_, rfl⟩
  · intro hgt
    rw [save_assessment_ops, if_pos hgt]

/-- Witness for the amended C2 at the candidate frame `dfBadSum`. -/
theorem validator_boundary_witness :
    save_assessment_ops "W" "X" dfBadSum
      = .error { reported_total := reportedTotal (editedTotal dfBadSum) } :=
  (validator_boundary "W" "X" dfBadSum).2
    (by simp [editedTotal, dfBadSum]; norm_num [lt_abs])

/-- Every row built by the save path carries the argument codes. -/
theorem savedRows_keys (i c : String) (df : List EditedRow) :
    ∀ r ∈ savedRows i c df, r.instructor_code = i ∧ r.course_code = c := by
  intro r hr
  obtain ⟨e, _, rfl⟩ := List.mem_map.mp hr
  exact ⟨rfl, rfl⟩

/-- The filtered select distributes over insert-append. -/
theorem selectAssessments_append (x y : List AssessmentRecord) (i c : String) :
    selectAssessments (x ++ y) i c
      = selectAssessments x i c ++ selectAssessments y i c :=
  List.filter_append _ _

/-- The filtered delete distributes over insert-append. -/
theorem deleteAssessments_append (x y : List AssessmentRecord) (i c : String) :
    deleteAssessments (x ++ y) i c
      = deleteAssessments x i c ++ deleteAssessments y i c :=
  List.filter_append _ _

/-- Selecting the pair just written returns exactly the written rows. -/
theorem selectAssessments_savedRows (i c : String) (df : List EditedRow) :
    selectAssessments (savedRows i c df) i c = savedRows i c df := by
  rw [selectAssessments, List.filter_eq_self]
  intro r hr
  obtain ⟨h1, h2⟩ := savedRows_keys i c df r hr
  simp [h1, h2]

/-- Selecting a pair right after deleting it yields nothing. -/
theorem selectAssessments_deleteAssessments (store : List AssessmentRecord)
    (i c : String) :
    selectAssessments (deleteAssessments store i c) i c = [] := by
  rw [selectAssessments, List.filter_eq_nil_iff]
  intro r hr
  rw [deleteAssessments] at hr
  have hp := List.of_mem_filter hr
  simp only [Bool.not_eq_true'] at hp
  simp [hp]

/-- Deleting the pair just written removes every written row. -/
theorem deleteAssessments_savedRows (i c : String) (df : List EditedRow) :
    deleteAssessments (savedRows i c df) i c = [] := by
  rw [deleteAssessments, List.filter_eq_nil_iff]
  intro r hr
  obtain ⟨h1, h2⟩ := savedRows_keys i c df r hr
  simp [h1, h2]

/-- The filtered delete is idempotent. -/
theorem deleteAssessments_idem (store : List AssessmentRecord) (i c : String) :
    deleteAssessments (deleteAssessments store i c) i c
      = deleteAssessments store i c := by
  rw [deleteAssessments, List.filter_eq_self]
  intro r hr
  rw [deleteAssessments] at hr
  have hp := List.of_mem_filter hr
  exact hp

/-- Deleting one pair leaves the select of any other pair unchanged. -/
theorem selectAssessments_deleteAssessments_other
    (store : List AssessmentRecord) (i c i2 c2 : String)
    (hne : ¬(i2 = i ∧ c2 = c)) :
    selectAssessments (deleteAssessments store i c) i2 c2
      = selectAssessments store i2 c2 := by
  simp only [selectAssessments, deleteAssessments]
  rw [List.filter_filter]
  apply List.filter_congr
  intro r _
  cases hs : (r.instructor_code == i2 && r.course_code == c2) with
  | false => simp [hs]
  | true =>
    have hd : (r.instructor_code == i && r.course_code == c) = false := by
      rw [Bool.and_eq_true, beq_iff_eq, beq_iff_eq] at hs
      rw [Bool.and_eq_false_iff]
      by_cases hic : r.instructor_code = i
      · right
        rw [beq_eq_false_iff_ne]
        intro hcc
        exact hne ⟨hs.1.symm.trans hic, hs.2.symm.trans hcc⟩
      · left
        rw [beq_eq_false_iff_ne]
        exact hic
    simp [hs, hd]

/-- Deleting one pair also leaves the written rows of another pair alone. -/
theorem selectAssessments_savedRows_other (i c i2 c2 : String)
    (df : List EditedRow) (hne : ¬(i2 = i ∧ c2 = c)) :
    selectAssessments (savedRows i c df) i2 c2 = [] := by
  rw [selectAssessments, List.filter_eq_nil_iff]
  intro r hr
  obtain ⟨h1, h2⟩ := savedRows_keys i c df r hr
  simp only [h1, h2, Bool.and_eq_true, beq_iff_eq]
  intro hb
  exact hne ⟨hb.1.symm, hb.2.symm⟩

/-- A successful save passed validation, and its resulting state replaces
the assessments of the pair by the normalized candidate rows, leaving the
courses table untouched. -/
theorem applyOps_replace (db : DBState) (i c : String)
    (rows : List AssessmentRecord) :
    applyOps db [ .deleteAssessmentsOp i c, .insertAssessmentsOp rows ]
      = { courses := db.courses
        , assessments := deleteAssessments db.assessments i c ++ rows } := rfl

/-- A successful save passed validation, and its resulting state replaces
the assessments of the pair by the normalized candidate rows, leaving the
courses table untouched. -/
theorem save_ok_state (i c : String) (df : List EditedRow) (db db1 : DBState)
    (h : save_assessments_for_course i c df db = .ok db1) :
    |editedTotal df - 100| ≤ 1/2
    ∧ db1 = { courses := db.courses
            , assessments :=
                deleteAssessments db.assessments i c ++ savedRows i c df } := by
  unfold save_assessments_for_course save_assessment_ops at h
  by_cases hv : |editedTotal df - 100| > 1/2
  · rw [if_pos hv] at h
    simp at h
  · rw [if_neg hv] at h
    refine ⟨not_lt.mp hv, ?_⟩
    have h2 := Except.ok.inj h
    rw [applyOps_replace] at h2
    exact h2.symm

/-- When validation passes, the save succeeds and returns the state that
`run_save` observes. -/
theorem save_ok_of_valid (i c : String) (df : List EditedRow) (db : DBState)
    (hv : |editedTotal df - 100| ≤ 1/2) :
    save_assessments_for_course i c df db = .ok (run_save i c df db) := by
  unfold run_save save_assessments_for_course save_assessment_ops
  rw [if_neg (not_lt.mpr hv)]

/-- After a successful save, selecting the pair returns exactly the
normalized candidate rows. -/
theorem selectAssessments_after_save (i c : String) (df : List EditedRow)
    (db db1 : DBState) (h : save_assessments_for_course i c df db = .ok db1) :
    selectAssessments db1.assessments i c = savedRows i c df := by
  obtain ⟨-, hdb1⟩ := save_ok_state i c df db db1 h
  rw [hdb1]
  show selectAssessments
    (deleteAssessments db.assessments i c ++ savedRows i c df) i c = _
  rw [selectAssessments_append, selectAssessments_deleteAssessments,
    selectAssessments_savedRows, List.nil_append]

/-- C5: validation happens before any persistence effect: when the percents
sum outside the ±0.5 tolerance, the save raises the validation error, issues
no delete and no insert (the op sequence is never produced), and the store
the caller observes afterwards is exactly the store before the call. -/
theorem save_validates_before_write (i c : String) (df : List EditedRow)
    (db : DBState) (h : |editedTotal df - 100| > 1/2) :
    save_assessment_ops i c df
      = .error { reported_total := reportedTotal (editedTotal df) }
    ∧ run_save i c df db = db := by
  have hops : save_assessment_ops i c df
      = .error { reported_total := reportedTotal (editedTotal df) } := by
    rw [save_assessment_ops, if_pos h]
  refine ⟨hops, ?_⟩
  unfold run_save save_assessments_for_course
  rw [hops]

/-- Witness for C5 at the out-of-tolerance frame `dfBadSum` over the store
`dbW`. -/
theorem save_validates_before_write_witness :
    save_assessment_ops "I" "C" dfBadSum
      = .error { reported_total := reportedTotal (editedTotal dfBadSum) }
    ∧ run_save "I" "C" dfBadSum dbW = dbW :=
  save_validates_before_write "I" "C" dfBadSum dbW
    (by simp [editedTotal, dfBadSum]; norm_num [lt_abs])

/-- C6: the replace-style save is idempotent: a second identical save leaves
the store in exactly the state the first produced, and that state's rows for
the pair are exactly the normalized candidate rows — no leftover rows from a
prior save and no duplicates (given distinct candidate labels, as a matrix
has). -/
theorem replaceAll_idempotent (i c : String) (df : List EditedRow)
    (db db1 : DBState)
    (hnd : (df.map (fun r => pyStrip (r.assessment_type.getD ""))).Nodup)
    (h : save_assessments_for_course i c df db = .ok db1) :
    save_assessments_for_course i c df db1 = .ok db1
    ∧ selectAssessments db1.assessments i c = savedRows i c df
    ∧ (selectAssessments db1.assessments i c).Nodup := by
  obtain ⟨hv, hdb1⟩ := save_ok_state i c df db db1 h
  have hsel := selectAssessments_after_save i c df db db1 h
  have hmap : (savedRows i c df).map AssessmentRecord.assessment_type
      = df.map (fun r => pyStrip (r.assessment_type.getD "")) := by
    rw [savedRows, List.map_map]
    rfl
  refine ⟨?_, hsel, ?_⟩
  · have hA : deleteAssessments db1.assessments i c
        = deleteAssessments db.assessments i c := by
      rw [hdb1]
      show deleteAssessments
        (deleteAssessments db.assessments i c ++ savedRows i c df) i c = _
      rw [deleteAssessments_append, deleteAssessments_idem,
        deleteAssessments_savedRows, List.append_nil]
    have h2 := save_ok_of_valid i c df db1 hv
    rw [h2]
    congr 1
    obtain ⟨-, hdb2⟩ := save_ok_state i c df db1 _ h2
    rw [hdb2, hA, hdb1]
  · rw [hsel]
    apply List.Nodup.of_map AssessmentRecord.assessment_type
    rw [hmap]
    exact hnd

/-- Witness for C6 at the candidate frame `dfOk` over the store `dbW`. -/
theorem replaceAll_idempotent_witness :
    save_assessments_for_course "I" "C" dfOk (run_save "I" "C" dfOk dbW)
      = .ok (run_save "I" "C" dfOk dbW)
    ∧ selectAssessments (run_save "I" "C" dfOk dbW).assessments "I" "C"
      = savedRows "I" "C" dfOk
    ∧ (selectAssessments
        (run_save "I" "C" dfOk dbW).assessments "I" "C").Nodup :=
  replaceAll_idempotent "I" "C" dfOk dbW (run_save "I" "C" dfOk dbW)
    (by decide)
    (save_ok_of_valid "I" "C" dfOk dbW
      (by simp [editedTotal, dfOk]; norm_num [abs_le]))

/-- C7: course deletion issues the assessments delete before the course-row
delete — after the first store primitive alone, the pair's assessment rows
are already gone while the courses table is untouched — and after the full
operation a subsequent reconcile for the pair returns the empty-input
default matrix: no orphaned assessment rows remain. -/
theorem delete_course_cascade (course_id i c : String) (db : DBState) :
    selectAssessments
        (applyOps db ((delete_course_ops course_id i c).take 1)).assessments
        i c = []
    ∧ (applyOps db ((delete_course_ops course_id i c).take 1)).courses
        = db.courses
    ∧ selectAssessments
        (delete_course_for_instructor course_id i c db).assessments i c = []
    ∧ load_assessments_for_course
        (delete_course_for_instructor course_id i c db).assessments i c
      = load_assessments_for_course [] i c := by
  have h2 : (delete_course_for_instructor course_id i c db).assessments
      = deleteAssessments db.assessments i c := rfl
  have hsel : selectAssessments (deleteAssessments db.assessments i c) i c
      = [] := selectAssessments_deleteAssessments db.assessments i c
  have h3 : load_assessments_for_course
      (delete_course_for_instructor course_id i c db).assessments i c
      = defaultMatrix := by
    rw [load_assessments_for_course, h2, if_pos (by rw [hsel]; rfl)]
  refine ⟨by rw [show (applyOps db
      ((delete_course_ops course_id i c).take 1)).assessments
      = deleteAssessments db.assessments i c from rfl]; exact hsel,
    rfl, by rw [h2]; exact hsel, ?_⟩
  rw [h3]
  rfl

/-- C8: after every successful save of a registry-shaped candidate matrix,
the persisted rows for the pair are exactly one per Category Registry entry,
in registry order, and their percents sum to 100 within ±0.5. -/
theorem save_shape_invariant (i c : String) (df : List EditedRow)
    (db db1 : DBState)
    (hshape : df.map (fun r => pyStrip (r.assessment_type.getD ""))
      = ASSESSMENT_TYPES)
    (h : save_assessments_for_course i c df db = .ok db1) :
    (selectAssessments db1.assessments i c).map
        AssessmentRecord.assessment_type = ASSESSMENT_TYPES
    ∧ |((selectAssessments db1.assessments i c).map
        (fun r => r.percent_of_class_assessment.getD 0)).sum - 100| ≤ 1/2 := by
  obtain ⟨hv, -⟩ := save_ok_state i c df db db1 h
  have hsel := selectAssessments_after_save i c df db db1 h
  rw [hsel]
  constructor
  · rw [savedRows, List.map_map, ← hshape]
    rfl
  · have hp : (savedRows i c df).map
        (fun r => r.percent_of_class_assessment.getD 0)
        = df.map (fun r => r.percent_of_class_assessment.getD 0) := by
      rw [savedRows, List.map_map]
      rfl
    rw [hp]
    exact hv

/-- Witness for C8 at the registry-shaped frame `dfFull` over the store
`dbW`. -/
theorem save_shape_invariant_witness :
    (selectAssessments (run_save "I" "C" dfFull dbW).assessments "I" "C").map
        AssessmentRecord.assessment_type = ASSESSMENT_TYPES
    ∧ |((selectAssessments
          (run_save "I" "C" dfFull dbW).assessments "I" "C").map
        (fun r => r.percent_of_class_assessment.getD 0)).sum - 100| ≤ 1/2 :=
  save_shape_invariant "I" "C" dfFull dbW (run_save "I" "C" dfFull dbW)
    (by decide)
    (save_ok_of_valid "I" "C" dfFull dbW
      (by simp [editedTotal, dfFull]))

/-- C9: the validator imposes no per-value bounds: any candidate frame whose
percents sum within the ±0.5 tolerance saves successfully, whatever the
`ai_misuse_susceptibility` and `modification_level` values are (even outside
0..100), and absent values of those two fields are defaulted to 0.0 in the
persisted rows. -/
theorem validator_no_value_bounds (i c : String) (df : List EditedRow)
    (db : DBState) (hv : |editedTotal df - 100| ≤ 1/2) :
    save_assessments_for_course i c df db = .ok (run_save i c df db)
    ∧ (savedRows i c df).map AssessmentRecord.ai_misuse_susceptibility
        = df.map (fun r => some (r.ai_misuse_susceptibility.getD 0))
    ∧ (savedRows i c df).map AssessmentRecord.modification_level
        = df.map (fun r => some (r.modification_level.getD 0)) := by
  refine ⟨save_ok_of_valid i c df db hv, ?_, ?_⟩
  · rw [savedRows, List.map_map]
    rfl
  · rw [savedRows, List.map_map]
    rfl

/-- Witness for C9 at `dfOk`, whose susceptibility 250 and modification -5
lie outside 0..100 and whose remaining values are absent. -/
theorem validator_no_value_bounds_witness :
    save_assessments_for_course "I" "C" dfOk dbW
      = .ok (run_save "I" "C" dfOk dbW)
    ∧ (savedRows "I" "C" dfOk).map AssessmentRecord.ai_misuse_susceptibility
        = dfOk.map (fun r => some (r.ai_misuse_susceptibility.getD 0))
    ∧ (savedRows "I" "C" dfOk).map AssessmentRecord.modification_level
        = dfOk.map (fun r => some (r.modification_level.getD 0)) :=
  validator_no_value_bounds "I" "C" dfOk dbW
    (by simp [editedTotal, dfOk]; norm_num [abs_le])

/-- C10: every row persisted by a successful save carries exactly the
instructor and course codes passed as arguments — identifiers present in
the candidate rows are overwritten — the pair's rows end up being exactly
the normalized candidate rows, and the rows of every other
(instructor, course) pair are left exactly as they were. -/
theorem save_keys_from_arguments (i c i2 c2 : String) (df : List EditedRow)
    (db db1 : DBState)
    (h : save_assessments_for_course i c df db = .ok db1)
    (hne : ¬(i2 = i ∧ c2 = c)) :
    (savedRows i c df).map AssessmentRecord.instructor_code
        = List.replicate df.length i
    ∧ (savedRows i c df).map AssessmentRecord.course_code
        = List.replicate df.length c
    ∧ selectAssessments db1.assessments i c = savedRows i c df
    ∧ selectAssessments db1.assessments i2 c2
        = selectAssessments db.assessments i2 c2 := by
  obtain ⟨-, hdb1⟩ := save_ok_state i c df db db1 h
  refine ⟨?_, ?_, selectAssessments_after_save i c df db db1 h, ?_⟩
  · rw [savedRows, List.map_map]
    show df.map (fun _ => i) = List.replicate df.length i
    rw [List.map_const']
  · rw [savedRows, List.map_map]
    show df.map (fun _ => c) = List.replicate df.length c
    rw [List.map_const']
  · rw [hdb1]
    show selectAssessments
      (deleteAssessments db.assessments i c ++ savedRows i c df) i2 c2 = _
    rw [selectAssessments_append,
      selectAssessments_deleteAssessments_other db.assessments i c i2 c2 hne,
      selectAssessments_savedRows_other i c i2 c2 df hne, List.append_nil]

/-- Witness for C10: saving `dfOk` (which carries the stray instructor code
"EVE") under ("I", "C") over `dbW` writes rows keyed ("I", "C") only and
leaves the pair ("I", "D") untouched. -/
theorem save_keys_from_arguments_witness :
    (savedRows "I" "C" dfOk).map AssessmentRecord.instructor_code
        = List.replicate dfOk.length "I"
    ∧ (savedRows "I" "C" dfOk).map AssessmentRecord.course_code
        = List.replicate dfOk.length "C"
    ∧ selectAssessments (run_save "I" "C" dfOk dbW).assessments "I" "C"
        = savedRows "I" "C" dfOk
    ∧ selectAssessments (run_save "I" "C" dfOk dbW).assessments "I" "D"
        = selectAssessments dbW.assessments "I" "D" :=
  save_keys_from_arguments "I" "C" "I" "D" dfOk dbW
    (run_save "I" "C" dfOk dbW)
    (save_ok_of_valid "I" "C" dfOk dbW
      (by simp [editedTotal, dfOk]; norm_num [abs_le]))
    (by decide)
